import Mathlib

/-
Verification development for the rss-mailer repository: a shallow embedding
of its signal-detection / deduplication / notification-dispatch pipeline,
with theorems settling the specification claims about it.

Conventions of the embedding:
- Python floats become rationals (the numeric paths proved about perform no
  irrational operations); pandas NaN / missing values become Option.none.
- Feed items and radar hits are identified by their stable dedup keys,
  modelled as opaque Nat values (sha256 ids resp. market|ticker|interval|ts
  strings in the source); only equality of keys is ever used.
- Python sets are represented by duplicate-free lists; set iteration order
  is implementation defined in Python, which matters only for the store
  truncation list(seen)[-4000:] and is discussed at the relevant theorems.
- A Python function that can raise is modelled by an explicit Bool input
  saying whether the underlying network/SMTP call returns normally, and an
  explicit raised flag in the result.
-/

-- =====================================================================
-- rss_digest.py : dedup store, pruning, cooldown (src/rss_digest.py)
-- =====================================================================

/-- One iteration of the entry loop of fetch_rss_new_items
(src/rss_digest.py lines 336-357): an entry whose stable id is already in
the seen set is skipped (continue); otherwise the item is appended to
new_items and its id is added to the seen set.  The accumulator is the pair
(new item ids, seen set in insertion order). -/
def fetchStep (acc : List Nat × List Nat) (sid : Nat) : List Nat × List Nat :=
  if acc.2.contains sid then acc else (acc.1 ++ [sid], acc.2 ++ [sid])

/-- fetch_rss_new_items (src/rss_digest.py lines 329-361) reduced to its
dedup content: seen0 is the stored seen_items list for the category,
set(seen_list) is List.dedup, and the loop over all feed entries is a fold
of fetchStep over their stable ids.  Returns (new item ids, final seen
set).  The final store truncation (line 360) is pruneSeen below. -/
def fetch_rss_new_items (seen0 : List Nat) (sids : List Nat) : List Nat × List Nat :=
  sids.foldl fetchStep ([], seen0.dedup)

/-- Final store write of fetch_rss_new_items (src/rss_digest.py line 360):
state seen_items category := list(seen)[-4000:], i.e. the last 4000
elements of an enumeration of the seen set (all of it when it has at most
4000 elements).  Python set iteration order is implementation defined; the
theorems below either hold for every enumeration or exhibit one possible
enumeration, as noted at each. -/
def pruneSeen (l : List Nat) : List Nat := l.drop (l.length - 4000)

/-- cooldown_ok (src/rss_digest.py lines 200-204).  lastSent none models a
bucket absent from last_sent; the source defaults the lookup to 0, hence
Option.getD 0. -/
def cooldown_ok (lastSent : Option ℤ) (cooldownSec : ℤ) (now : ℤ) : Bool :=
  if cooldownSec ≤ 0 then true
  else decide (now - lastSent.getD 0 ≥ cooldownSec)

/-- mark_sent (src/rss_digest.py lines 206-208): records now as the
bucket's last_sent. -/
def mark_sent (now : ℤ) : Option ℤ := some now

/-- One dispatch attempt for one bucket, as main wires cooldown_ok and
mark_sent around each send (src/rss_digest.py lines 557-613): the bucket
sends iff cooldown_ok, and a successful send records mark_sent. -/
def sendAttempt (lastSent : Option ℤ) (cooldownSec now : ℤ) : Bool × Option ℤ :=
  if cooldown_ok lastSent cooldownSec now then (true, mark_sent now) else (false, lastSent)

/-- COOLDOWN_US_SEC (src/rss_digest.py line 35). -/
def COOLDOWN_US_SEC : ℤ := 1800

/-- Persisted state of rss_digest restricted to one category/bucket
(US_MARKET): the stored seen_items list and the bucket's last_sent entry. -/
structure RssState where
  seen : List Nat
  lastSentUS : Option ℤ
deriving DecidableEq

/-- Result of one rss_digest.main run: the state as it ends up persisted on
disk, whether the market email was sent, and whether the run raised. -/
structure RssRunResult where
  persisted : RssState
  sentMarket : Bool
  raised : Bool
deriving DecidableEq

/-- rss_digest.main (src/rss_digest.py lines 544-616) projected onto a run
in which only the US_MARKET category has feed items and none of them match
the holdings keywords (so the holdings email and all other buckets are
inactive).  Faithful to the source's ordering:
- fetch_rss_new_items records all new ids in seen_items (lines 549, 360);
- send_us := bool(us_all) and cooldown_ok(state, US, 1800) (line 558);
- save_state(state) at line 573 persists the updated seen_items BEFORE any
  email is attempted;
- if send_us, send_email may raise (smtpOk = false): then mark_sent and the
  second save_state (line 615) are skipped, but the line-573 save already
  persisted the seen marks;
- on success, mark_sent("US") and the second save_state persist last_sent. -/
def rssMainUS (st : RssState) (sids : List Nat) (now : ℤ) (smtpOk : Bool) : RssRunResult :=
  if !(fetch_rss_new_items st.seen sids).1.isEmpty
      && cooldown_ok st.lastSentUS COOLDOWN_US_SEC now then
    if smtpOk then
      { persisted := { seen := pruneSeen (fetch_rss_new_items st.seen sids).2,
                       lastSentUS := mark_sent now },
        sentMarket := true, raised := false }
    else
      { persisted := { seen := pruneSeen (fetch_rss_new_items st.seen sids).2,
                       lastSentUS := st.lastSentUS },
        sentMarket := false, raised := true }
  else
    { persisted := { seen := pruneSeen (fetch_rss_new_items st.seen sids).2,
                     lastSentUS := st.lastSentUS },
      sentMarket := false, raised := false }

-- =====================================================================
-- radar.py : dedup_and_send and _split_message (src/radar.py)
-- =====================================================================

/-- One iteration of the hit loop of dedup_and_send (src/radar.py lines
581-587): a hit whose sig_key is already in the sent map is skipped;
otherwise sent[k] := True and the hit joins new_hits.  Identical in shape
to fetchStep, which lets the fold lemmas be shared. -/
def radarStep (acc : List Nat × List Nat) (k : Nat) : List Nat × List Nat :=
  if acc.2.contains k then acc else (acc.1 ++ [k], acc.2 ++ [k])

/-- The filtering part of dedup_and_send: fold of radarStep over the run's
hit keys, starting from the persisted sent map (a set of keys). -/
def radarFilterNew (sent : List Nat) (hits : List Nat) : List Nat × List Nat :=
  hits.foldl radarStep ([], sent.dedup)

/-- Result of one dedup_and_send call: the sent map as persisted on disk
after the call, whether a message went out, and whether tg_send raised. -/
structure RadarRunResult where
  persisted : List Nat
  sent : Bool
  raised : Bool
deriving DecidableEq

/-- dedup_and_send (src/radar.py lines 577-593).  The in-memory sent map is
updated while filtering; if there are new hits, tg_send runs BEFORE
save_state, so a raise in tg_send (tgOk = false) propagates and leaves the
persisted file unchanged; only after tg_send returns does save_state write
the updated map.  With no new hits nothing is sent and save_state rewrites
the (membership-unchanged) map. -/
def dedup_and_send (persisted : List Nat) (hits : List Nat) (tgOk : Bool) : RadarRunResult :=
  if (radarFilterNew persisted hits).1.isEmpty then
    { persisted := (radarFilterNew persisted hits).2, sent := false, raised := false }
  else if tgOk then
    { persisted := (radarFilterNew persisted hits).2, sent := true, raised := false }
  else { persisted := persisted, sent := false, raised := true }

/-- Python str.strip(): drop leading and trailing whitespace. -/
def pyStrip (s : List Char) : List Char :=
  ((s.dropWhile Char.isWhitespace).reverse.dropWhile Char.isWhitespace).reverse

/-- Python str.splitlines() on the line terminators arising here (LF, CR,
CRLF): a terminator always closes the current line (possibly empty); a
trailing fragment is emitted only when non-empty, so a trailing terminator
produces no extra empty line. -/
def splitlinesGo : List Char → List Char → List (List Char)
  | [], cur => if cur.isEmpty then [] else [cur]
  | '\r' :: '\n' :: rest, cur => cur :: splitlinesGo rest []
  | '\n' :: rest, cur => cur :: splitlinesGo rest []
  | '\r' :: rest, cur => cur :: splitlinesGo rest []
  | c :: rest, cur => splitlinesGo rest (cur ++ [c])

/-- Python text.splitlines() (src/radar.py line 96). -/
def pySplitlines (s : List Char) : List (List Char) := splitlinesGo s []

/-- Python newline join of the buffered lines, as in the source's
backslash-n join of buf (src/radar.py lines 108 and 124). -/
def joinNL : List (List Char) → List Char
  | [] => []
  | [l] => l
  | l :: ls => l ++ '\n' :: joinNL ls

/-- Inner while loop of _split_message for an over-long line (src/radar.py
lines 112-115): repeatedly emit the stripped first max_len characters and
continue with the rest; returns the emitted chunks and the remainder s of
length at most max_len.  The source would not terminate for max_len = 0
(s[0:] never shrinks); the claims assume max_len >= 1 and the max_len = 0
case here returns the line unchanged. -/
def splitLong (maxLen : Nat) (s : List Char) : List (List Char) × List Char :=
  if _h : maxLen = 0 then ([], s)
  else if _h2 : s.length > maxLen then
    (pyStrip (s.take maxLen) :: (splitLong maxLen (s.drop maxLen)).1,
     (splitLong maxLen (s.drop maxLen)).2)
  else ([], s)
termination_by s.length
decreasing_by all_goals (simp [List.length_drop]; omega)

/-- Main line loop of _split_message (src/radar.py lines 100-124),
parameterised by the pending buffer buf and its running joined length cur:
a line that fits joins the buffer; otherwise the buffer is flushed as a
stripped chunk, an over-long line is cut by splitLong with its stripped
remainder (if any) starting the next buffer, and a fitting line starts the
next buffer itself; at the end a non-empty buffer is flushed. -/
def smGo (maxLen : Nat) : List (List Char) → List (List Char) → Nat → List (List Char)
  | [], buf, _ => if buf.isEmpty then [] else [pyStrip (joinNL buf)]
  | line :: rest, buf, cur =>
    if cur + ((if buf.isEmpty then 0 else 1) + line.length) ≤ maxLen then
      smGo maxLen rest (buf ++ [line]) (cur + ((if buf.isEmpty then 0 else 1) + line.length))
    else if line.length > maxLen then
      if (pyStrip (splitLong maxLen line).2).isEmpty then
        (if buf.isEmpty then [] else [pyStrip (joinNL buf)]) ++ (splitLong maxLen line).1
          ++ smGo maxLen rest [] 0
      else
        (if buf.isEmpty then [] else [pyStrip (joinNL buf)]) ++ (splitLong maxLen line).1
          ++ smGo maxLen rest [pyStrip (splitLong maxLen line).2]
               (pyStrip (splitLong maxLen line).2).length
    else
      (if buf.isEmpty then [] else [pyStrip (joinNL buf)]) ++ smGo maxLen rest [line] line.length

/-- _split_message (src/radar.py lines 86-126) for a non-None input: strip
the text; empty gives []; text that already fits gives the single chunk;
otherwise run the line loop over splitlines and keep only chunks that are
non-empty and non-whitespace. -/
def split_message (text : List Char) (maxLen : Nat) : List (List Char) :=
  if (pyStrip text).isEmpty then []
  else if (pyStrip text).length ≤ maxLen then [pyStrip text]
  else (smGo maxLen (pySplitlines (pyStrip text)) [] 0).filter
        (fun c => !c.isEmpty && !(pyStrip c).isEmpty)

-- =====================================================================
-- Moving-average scanners: scripts/ma20_scan_kr.py, eod_ma20_close.py,
-- kis_ma20_close_kr.py
-- =====================================================================

/-- pandas rolling(n).mean() (min_periods = n, the default) evaluated at
the last row of a series: defined only when at least n values exist, and
then the arithmetic mean of the last n. -/
def rollingLast (n : Nat) (l : List ℚ) : Option ℚ :=
  if l.length < n then none else some ((l.drop (l.length - n)).sum / n)

/-- Breakout mask of compute_signals (src/scripts/ma20_scan_kr.py lines
56-78) for one ticker: closes and vals are the ticker's close and value
columns of the pivot in date order; c_prev / c_now are the closes at the
previous and latest date, m_prev / m_now the rolling-20 means there, v_now
the latest traded value, and the mask is
(c_prev <= m_prev) and (c_now > m_now) and (v_now >= value_floor);
pandas comparisons against NaN are False, hence the none fallback. -/
def ma20_breakout_mask (valueFloor : ℚ) (closes vals : List ℚ) : Bool :=
  match closes.dropLast.getLast?, closes.getLast?,
        rollingLast 20 closes.dropLast, rollingLast 20 closes, vals.getLast? with
  | some cPrev, some cNow, some mPrev, some mNow, some vNow =>
      decide (cPrev ≤ mPrev) && decide (cNow > mNow) && decide (vNow ≥ valueFloor)
  | _, _, _, _, _ => false

/-- NEAR_PCT of eod_ma20_close.py (line 22): 0.005. -/
def EOD_NEAR_PCT : ℚ := 5/1000

/-- scan (src/eod_ma20_close.py lines 70-99) reduced to its signal
computation on the close series: none when fewer than 25 bars or when
neither rule fires; some true is a Breakout row (breakout wins the type
field), some false a Near-only row.  Note the source's breakout condition
is (c1 < m1) and (c0 >= m0) - strict on the previous bar, non-strict on
the current one. -/
def eod_scan_kind (closes : List ℚ) : Option Bool :=
  if closes.length < 25 then none else
  match closes.getLast?, closes.dropLast.getLast?,
        rollingLast 20 closes, rollingLast 20 closes.dropLast with
  | some c0, some c1, some m0, some m1 =>
      let breakout := decide (c1 < m1) && decide (c0 ≥ m0)
      let near := decide (|c0 / m0 - 1| ≤ EOD_NEAR_PCT)
      if breakout || near then some breakout else none
  | _, _, _, _ => none

/-- Signal record returned by calc_signals (src/kis_ma20_close_kr.py). -/
structure KisSig where
  close : ℚ
  ma20 : ℚ
  pct : ℚ
  volx : ℚ
  is_breakout : Bool
  is_near : Bool

/-- calc_signals (src/kis_ma20_close_kr.py lines 182-222): None under 25
bars; c0/c1 the last two closes, m0/m1 the rolling-20 means there, v0 the
last volume, vm0 the rolling-20 volume mean (the source's isnan guard is
the none fallback of the match); None when c0 < MIN_PRICE; volx is
v0 / vm0 when vm0 > 0 else 0.0, and None when volx < VOL_MULT; pct and
near guard against m0 = 0 as the source's truthiness tests do; breakout is
(c1 < m1) and (c0 >= m0). -/
def calc_signals (MIN_PRICE VOL_MULT NEAR_PCT : ℚ) (closes vols : List ℚ) : Option KisSig :=
  if closes.length < 25 then none else
  match closes.getLast?, closes.dropLast.getLast?,
        rollingLast 20 closes, rollingLast 20 closes.dropLast,
        vols.getLast?, rollingLast 20 vols with
  | some c0, some c1, some m0, some m1, some v0, some vm0 =>
      if c0 < MIN_PRICE then none else
      let volx := if vm0 > 0 then v0 / vm0 else 0
      if volx < VOL_MULT then none else
      let pct := if m0 ≠ 0 then (c0 / m0 - 1) * 100 else 0
      let near := if m0 ≠ 0 then decide (|c0 / m0 - 1| ≤ NEAR_PCT) else false
      let breakout := decide (c1 < m1) && decide (c0 ≥ m0)
      some { close := c0, ma20 := m0, pct := pct, volx := volx,
             is_breakout := breakout, is_near := near }
  | _, _, _, _, _, _ => none

/-- MIN_VALUE_ABS (src/rss_digest.py line 32). -/
def MIN_VALUE_ABS : ℚ := 50000

/-- Volume/value spike test of detect_price_alerts_and_spikes
(src/rss_digest.py lines 281-292; the KOSDAQ copy at lines 304-315 differs
only in the percent floor).  pv and pval are the previous run's volume and
traded value for the key, defaulting to 0 when unknown; the ratios are
computed only behind a pv > 0 (resp. pval > 0) guard, else set to 0.0, and
the spike requires the absolute-value floor, one of the guarded ratio
conditions, and the percent floor. -/
def spike_hit (volSpikeMult valSpikeMult pctFloor : ℚ) (pv pval vol val pct : ℚ) : Bool :=
  let volx := if pv > 0 then vol / pv else 0
  let valx := if pval > 0 then val / pval else 0
  let absOk := decide (val ≥ MIN_VALUE_ABS)
  absOk
    && ((decide (pv > 0) && decide (volx ≥ volSpikeMult))
        || (decide (pval > 0) && decide (valx ≥ valSpikeMult)))
    && decide (pct ≥ pctFloor)

-- =====================================================================
-- scan_close_kr.py : rsi
-- =====================================================================

/-- Tail of pandas Series.diff(): consecutive differences. -/
def pdDiffGo (prev : ℚ) : List ℚ → List (Option ℚ)
  | [] => []
  | y :: ys => some (y - prev) :: pdDiffGo y ys

/-- pandas series.diff() (src/scan_close_kr.py line 39): first entry NaN,
then consecutive differences. -/
def pdDiff : List ℚ → List (Option ℚ)
  | [] => []
  | x :: xs => none :: pdDiffGo x xs

/-- delta.clip(lower=0.0) (src/scan_close_kr.py line 40): gains; NaN
propagates through clip. -/
def gains (d : List (Option ℚ)) : List (Option ℚ) := d.map (Option.map (fun q => max q 0))

/-- minus delta.clip(upper=0.0) (src/scan_close_kr.py line 41): losses. -/
def losses (d : List (Option ℚ)) : List (Option ℚ) := d.map (Option.map (fun q => max (-q) 0))

/-- Running part of pandas ewm(alpha=a, adjust=False).mean() once seeded at
mean y: the next mean is (1-a)y + a x. -/
def ewmRun (a y : ℚ) : List (Option ℚ) → List (Option ℚ)
  | [] => []
  | none :: rest => some y :: ewmRun a y rest
  | some x :: rest => some ((1 - a) * y + a * x) :: ewmRun a y rest

/-- pandas ewm(alpha=a, adjust=False).mean() (src/scan_close_kr.py lines
43-44) for inputs whose missing entries form a prefix - the only shape
arising here, where diff puts a single NaN at index 0: leading NaN stay
NaN, the first value seeds the mean, then ewmRun. -/
def ewmMean (a : ℚ) : List (Option ℚ) → List (Option ℚ)
  | [] => []
  | none :: rest => none :: ewmMean a rest
  | some x :: rest => some x :: ewmRun a x rest

/-- avg_loss.replace(0, nan) (src/scan_close_kr.py line 46). -/
def replaceZero (o : Option ℚ) : Option ℚ :=
  match o with
  | some q => if q = 0 then none else some q
  | none => none

/-- Elementwise division with NaN propagation, for rs = avg_gain /
avg_loss_replaced (src/scan_close_kr.py line 46). -/
def ratDivOpt (x y : Option ℚ) : Option ℚ :=
  match x, y with
  | some a, some b => some (a / b)
  | _, _ => none

/-- rsi (src/scan_close_kr.py lines 38-48) with its called period 14:
Wilder-smoothed average gains and losses (ewm alpha = 1/14, adjust=False),
rs with a zero average loss replaced by NaN, out = 100 - 100/(1+rs), and
out.fillna(0) as the returned series. -/
def rsiSeries (closes : List ℚ) : List ℚ :=
  ((List.zipWith ratDivOpt
      (ewmMean (1/14) (gains (pdDiff closes)))
      ((ewmMean (1/14) (losses (pdDiff closes))).map replaceZero)).map
    (Option.map (fun r => 100 - 100 / (1 + r)))).map (fun o => o.getD 0)

/-- Last value of the rsi series, as consumed by compute_signals via
_to_scalar with default 0.0 (src/scan_close_kr.py lines 179 and 192). -/
def rsiLast (closes : List ℚ) : ℚ := (rsiSeries closes).getLast?.getD 0

-- =====================================================================
-- Notification dispatch: scripts/ma20_scan_kr.py main / merge_and_send.py
-- =====================================================================

/-- The two notification channels of the mailer scripts. -/
inductive Chan
  | email
  | telegram
deriving DecidableEq

/-- The dispatch tail of scripts/ma20_scan_kr.main (lines 188-189):
send_email(subject, body_text) then send_telegram(tg_text), with no
exception handling around either call; merge_and_send.main (lines 176-177)
has the same shape (send_mail then tg_send).  Inputs say whether each
channel's send returns normally; the result is the list of channels whose
send was actually attempted, in order, and whether an exception escapes
the sequence (aborting the run). -/
def sequential_dispatch (emailOk telegramOk : Bool) : List Chan × Bool :=
  if emailOk then
    if telegramOk then ([Chan.email, Chan.telegram], false)
    else ([Chan.email, Chan.telegram], true)
  else ([Chan.email], true)

-- =====================================================================
-- Concrete bar series used by the example scenarios and counterexamples
-- =====================================================================

/-- Bar series realising the specification's example scenario: 25 closes
whose rolling-20 mean is exactly 100 at both of the last two positions,
with previous close 99 and latest close 101 (the early 101 at index 4
balances the 99 so both windows sum to 2000). -/
def exCloses : List ℚ :=
  [100, 100, 100, 100, 101,
   100, 100, 100, 100, 100, 100, 100, 100, 100, 100, 100, 100, 100,
   100, 100, 100, 100, 100, 99, 101]

/-- Flat traded-value column for the example (v_now = 1). -/
def exVals : List ℚ :=
  [1, 1, 1, 1, 1, 1, 1, 1, 1, 1, 1, 1, 1, 1, 1, 1, 1, 1, 1, 1, 1, 1, 1, 1, 1]

/-- Flat volume column for the example: volume ratio exactly 1.0. -/
def exVols : List ℚ :=
  [7, 7, 7, 7, 7, 7, 7, 7, 7, 7, 7, 7, 7, 7, 7, 7, 7, 7, 7, 7, 7, 7, 7, 7, 7]

/-- Close series for the C1 counterexample: previous close equal to the
previous rolling mean (both 100) and latest close 101 above the latest
rolling mean 2001/20. -/
def c1CexCloses : List ℚ :=
  [100, 100, 100, 100, 100, 100, 100, 100, 100, 100, 100, 100, 100,
   100, 100, 100, 100, 100, 100, 100, 100, 100, 100, 100, 101]

/-- Strictly rising close series with 15 gains and no losses, for the RSI
zero-average-loss counterexample. -/
def c6Closes : List ℚ :=
  [1, 2, 3, 4, 5, 6, 7, 8, 9, 10, 11, 12, 13, 14, 15, 16]

/-- All-zero volume column: the rolling average volume is 0. -/
def c8Vols : List ℚ :=
  [0, 0, 0, 0, 0, 0, 0, 0, 0, 0, 0, 0, 0, 0, 0, 0, 0, 0, 0, 0, 0, 0, 0, 0, 0]

-- =====================================================================
-- Lemmas about the dedup fold
-- =====================================================================

/-- radarStep is the same step function as fetchStep. -/
theorem radarStep_eq_fetchStep : radarStep = fetchStep := rfl

/-- Elements already in the seen component stay in it across the fold. -/
theorem fetchFold_mem_acc :
    ∀ (l : List Nat) (acc : List Nat × List Nat) (x : Nat),
      x ∈ acc.2 → x ∈ (l.foldl fetchStep acc).2 := by
  intro l
  induction l with
  | nil => intro acc x hx; simpa using hx
  | cons a rest ih =>
    intro acc x hx
    rw [List.foldl_cons]
    apply ih
    by_cases h : a ∈ acc.2
    · simp [fetchStep, h, hx]
    · simp [fetchStep, h, hx]

/-- Every processed id ends up in the seen component. -/
theorem fetchFold_mem_of_mem :
    ∀ (l : List Nat) (acc : List Nat × List Nat) (s : Nat),
      s ∈ l → s ∈ (l.foldl fetchStep acc).2 := by
  intro l
  induction l with
  | nil => intro acc s hs; simp at hs
  | cons a rest ih =>
    intro acc s hs
    rw [List.foldl_cons]
    rcases List.mem_cons.mp hs with h | h
    · subst h
      apply fetchFold_mem_acc
      by_cases h : s ∈ acc.2
      · simp [fetchStep, h]
      · simp [fetchStep, h]
    · exact ih _ s h

/-- If every id is already seen, the fold is a no-op. -/
theorem fetchFold_skip :
    ∀ (l : List Nat) (acc : List Nat × List Nat),
      (∀ s ∈ l, s ∈ acc.2) → l.foldl fetchStep acc = acc := by
  intro l
  induction l with
  | nil => intro acc _; rfl
  | cons a rest ih =>
    intro acc h
    rw [List.foldl_cons]
    have ha : a ∈ acc.2 := h a (List.mem_cons_self a rest)
    rw [show fetchStep acc a = acc by simp [fetchStep, ha]]
    exact ih acc (fun s hs => h s (List.mem_cons_of_mem a hs))

/-- The new-items component only grows at the back: a prefix of the
accumulator can be peeled off. -/
theorem fetchFold_ext :
    ∀ (l : List Nat) (b s a : List Nat),
      l.foldl fetchStep (a ++ b, s) =
        (a ++ (l.foldl fetchStep (b, s)).1, (l.foldl fetchStep (b, s)).2) := by
  intro l
  induction l with
  | nil => intro b s a; rfl
  | cons x rest ih =>
    intro b s a
    rw [List.foldl_cons, List.foldl_cons]
    by_cases h : x ∈ s
    · rw [show fetchStep (a ++ b, s) x = (a ++ b, s) by simp [fetchStep, h],
          show fetchStep (b, s) x = (b, s) by simp [fetchStep, h]]
      exact ih b s a
    · rw [show fetchStep (a ++ b, s) x = (a ++ (b ++ [x]), s ++ [x]) by
            simp [fetchStep, h, List.append_assoc],
          show fetchStep (b, s) x = (b ++ [x], s ++ [x]) by simp [fetchStep, h]]
      exact ih (b ++ [x]) (s ++ [x]) a

/-- Folding pairwise-distinct ids that are all unseen appends exactly those
ids to both components. -/
theorem fetchFold_disjoint :
    ∀ (l : List Nat) (acc : List Nat × List Nat),
      l.Nodup → (∀ s ∈ l, s ∉ acc.2) →
      l.foldl fetchStep acc = (acc.1 ++ l, acc.2 ++ l) := by
  intro l
  induction l with
  | nil => intro acc _ _; simp
  | cons x rest ih =>
    intro acc hnd hdis
    have hx : x ∉ acc.2 := hdis x (List.mem_cons_self x rest)
    rw [List.foldl_cons,
        show fetchStep acc x = (acc.1 ++ [x], acc.2 ++ [x]) by simp [fetchStep, hx]]
    have hnd2 := List.nodup_cons.mp hnd
    have hdis2 : ∀ s ∈ rest, s ∉ acc.2 ++ [x] := by
      intro s hs hmem
      rcases List.mem_append.mp hmem with h | h
      · exact hdis s (List.mem_cons_of_mem x hs) h
      · rcases List.mem_singleton.mp h with rfl
        exact hnd2.1 hs
    rw [ih (acc.1 ++ [x], acc.2 ++ [x]) hnd2.2 hdis2]
    simp

/-- An id seen before the fold never shows up among the new items. -/
theorem fetchFold_not_new :
    ∀ (l : List Nat) (acc : List Nat × List Nat) (s : Nat),
      s ∈ acc.2 → s ∉ acc.1 → s ∉ (l.foldl fetchStep acc).1 := by
  intro l
  induction l with
  | nil => intro acc s h1 h2; simpa using h2
  | cons x rest ih =>
    intro acc s h1 h2
    rw [List.foldl_cons]
    by_cases h : x ∈ acc.2
    · rw [show fetchStep acc x = acc by simp [fetchStep, h]]
      exact ih acc s h1 h2
    · rw [show fetchStep acc x = (acc.1 ++ [x], acc.2 ++ [x]) by simp [fetchStep, h]]
      apply ih
      · exact List.mem_append_left _ h1
      · intro hmem
        rcases List.mem_append.mp hmem with hm | hm
        · exact h2 hm
        · rcases List.mem_singleton.mp hm with rfl
          exact h h1

/-- A run returns no new items when every incoming id is already stored. -/
theorem fetch_new_nil_of_seen (seen0 sids : List Nat)
    (h : ∀ s ∈ sids, s ∈ seen0) : (fetch_rss_new_items seen0 sids).1 = [] := by
  unfold fetch_rss_new_items
  rw [fetchFold_skip sids ([], seen0.dedup)
        (fun s hs => List.mem_dedup.mpr (h s hs))]

/-- Every incoming id is in the final seen set. -/
theorem fetch_seen_mem (seen0 sids : List Nat) (s : Nat) (h : s ∈ sids) :
    s ∈ (fetch_rss_new_items seen0 sids).2 :=
  fetchFold_mem_of_mem sids ([], seen0.dedup) s h

/-- A run over ids that are all already stored never sends the market
email: fetch_rss_new_items returns no new items, so send_us is false. -/
theorem rssMainUS_sent_false_of_seen (st : RssState) (sids : List Nat) (now : ℤ) (ok : Bool)
    (h : ∀ s ∈ sids, s ∈ st.seen) : (rssMainUS st sids now ok).sentMarket = false := by
  unfold rssMainUS
  rw [fetch_new_nil_of_seen _ _ h]
  simp

/-- Truncation is the identity on stores within the 4000-entry cap. -/
theorem pruneSeen_of_le (l : List Nat) (h : l.length ≤ 4000) : pruneSeen l = l := by
  unfold pruneSeen
  rw [Nat.sub_eq_zero_of_le h, List.drop_zero]

-- =====================================================================
-- Claim C2 (idempotence of the dedup filter)
-- =====================================================================

/-- Claim C2, corrected.  Re-running against identical input with the
store as the first run wrote it dispatches nothing, PROVIDED the
category's seen set stayed within the 4000-entry cap (first conjunct);
ids already recorded are always dropped silently (second conjunct); and
radar.py's dedup_and_send, whose store is never pruned, is unconditionally
idempotent (third conjunct: the second run sends no message). -/
theorem c2_theorem (seen0 sids persisted hits : List Nat)
    (hcap : (fetch_rss_new_items seen0 sids).2.length ≤ 4000) :
    (fetch_rss_new_items (pruneSeen (fetch_rss_new_items seen0 sids).2) sids).1 = [] ∧
    (∀ s ∈ seen0, s ∉ (fetch_rss_new_items seen0 sids).1) ∧
    (dedup_and_send (dedup_and_send persisted hits true).persisted hits true).sent = false := by
  refine ⟨?_, ?_, ?_⟩
  · rw [pruneSeen_of_le _ hcap]
    exact fetch_new_nil_of_seen _ _ (fun s hs => fetch_seen_mem seen0 sids s hs)
  · intro s hs
    exact fetchFold_not_new sids ([], seen0.dedup) s (List.mem_dedup.mpr hs)
      (List.not_mem_nil s)
  · set P := (dedup_and_send persisted hits true).persisted with hP
    have hmem : ∀ h ∈ hits, h ∈ P := by
      intro h hh
      rw [hP]
      unfold dedup_and_send radarFilterNew
      rw [radarStep_eq_fetchStep]
      by_cases he : (hits.foldl fetchStep ([], persisted.dedup)).1.isEmpty = true
      · rw [if_pos he]
        exact fetchFold_mem_of_mem hits ([], persisted.dedup) h hh
      · rw [if_neg he, if_pos rfl]
        exact fetchFold_mem_of_mem hits ([], persisted.dedup) h hh
    unfold dedup_and_send radarFilterNew
    rw [radarStep_eq_fetchStep]
    rw [fetchFold_skip hits ([], P.dedup) (fun s hs => List.mem_dedup.mpr (hmem s hs))]
    rfl

/-- Claim C2 counterexample.  A category that receives 4001 distinct
items in one run overflows the 4000-entry cap (rss_digest.py line 360);
whichever 4000 ids survive, some id of the identical feed was evicted, so
the second run classifies it as new again - here the exhibited enumeration
is the insertion order, and item 0 is re-emitted. -/
theorem c2_counterexample :
    (fetch_rss_new_items (pruneSeen (fetch_rss_new_items [] (List.range 4001)).2)
        (List.range 4001)).1 ≠ [] := by
  have h1 : fetch_rss_new_items [] (List.range 4001) = (List.range 4001, List.range 4001) := by
    unfold fetch_rss_new_items
    rw [show ([] : List Nat).dedup = [] from rfl]
    rw [fetchFold_disjoint (List.range 4001) ([], []) (List.nodup_range 4001)
          (by intro s _ hmem; simp at hmem)]
    simp
  rw [h1]
  have h2 : pruneSeen (List.range 4001) = (List.range 4000).map Nat.succ := by
    unfold pruneSeen
    rw [show (List.range 4001).length - 4000 = 1 by rw [List.length_range]]
    rw [List.range_succ_eq_map 4000, List.drop_one, List.tail_cons]
  rw [h2]
  have h0 : (0 : ℕ) ∉ ((List.range 4000).map Nat.succ).dedup := by
    intro hc
    have := List.mem_dedup.mp hc
    simp at this
  unfold fetch_rss_new_items
  rw [List.range_succ_eq_map 4000, List.foldl_cons]
  rw [show fetchStep ([], ((List.range 4000).map Nat.succ).dedup) 0 =
        ([0] ++ [], ((List.range 4000).map Nat.succ).dedup ++ [0]) by
      simp [fetchStep, h0]]
  rw [fetchFold_ext ((List.range 4000).map Nat.succ) [] _ [0], List.singleton_append]
  exact List.cons_ne_nil 0 _

-- =====================================================================
-- Claim C3 (cooldown suppression must not mark dedup-seen)
-- =====================================================================

/-- Claim C3, corrected.  In rss_digest.main a batch suppressed by
cooldown IS recorded as seen: fetch_rss_new_items marks ids at fetch time
and save_state (line 573) persists them before the cooldown gate, so the
suppressed bucket sends nothing and raises nothing, every incoming id is
nevertheless persisted as seen, and a later run over the same feed sends
nothing even after the cooldown has cleared - the batch is permanently
dropped, not deferred. -/
theorem c3_theorem (st : RssState) (sids : List Nat) (now now2 : ℤ) (ok ok2 : Bool)
    (hcool : cooldown_ok st.lastSentUS COOLDOWN_US_SEC now = false)
    (hcap : (fetch_rss_new_items st.seen sids).2.length ≤ 4000) :
    (rssMainUS st sids now ok).sentMarket = false ∧
    (rssMainUS st sids now ok).raised = false ∧
    (∀ s ∈ sids, s ∈ (rssMainUS st sids now ok).persisted.seen) ∧
    (rssMainUS (rssMainUS st sids now ok).persisted sids now2 ok2).sentMarket = false := by
  have hrun : rssMainUS st sids now ok =
      { persisted := { seen := pruneSeen (fetch_rss_new_items st.seen sids).2,
                       lastSentUS := st.lastSentUS },
        sentMarket := false, raised := false } := by
    unfold rssMainUS
    rw [hcool]
    simp
  have hseen : ∀ s ∈ sids, s ∈ (rssMainUS st sids now ok).persisted.seen := by
    intro s hs
    rw [hrun]
    simpa [pruneSeen_of_le _ hcap] using fetch_seen_mem st.seen sids s hs
  refine ⟨by rw [hrun], by rw [hrun], hseen, ?_⟩
  exact rssMainUS_sent_false_of_seen _ _ _ _ hseen

/-- Claim C3 counterexample at concrete values.  Bucket US last sent at
epoch 1000, run at 1500 (500 s elapsed, cooldown 1800): the batch with
item 7 is suppressed, yet 7 is persisted as seen; a second run at epoch
4000, cooldown long cleared, still sends nothing. -/
theorem c3_counterexample :
    rssMainUS { seen := [], lastSentUS := some 1000 } [7] 1500 true =
      { persisted := { seen := [7], lastSentUS := some 1000 },
        sentMarket := false, raised := false } ∧
    rssMainUS { seen := [7], lastSentUS := some 1000 } [7] 4000 true =
      { persisted := { seen := [7], lastSentUS := some 1000 },
        sentMarket := false, raised := false } := by decide

-- =====================================================================
-- Claim C4 (dedup writes persisted only after dispatch succeeds)
-- =====================================================================

/-- Claim C4, corrected to radar.py only.  In radar.dedup_and_send the
sent-map write is persisted only after tg_send returns: when the send
raises, the exception propagates before save_state, the persisted map is
unchanged, nothing was sent, and a retry with a working channel still
dispatches the events.  (rss_digest.main violates the claim; see the
counterexample.) -/
theorem c4_theorem (persisted hits : List Nat)
    (hnew : (radarFilterNew persisted hits).1 ≠ []) :
    (dedup_and_send persisted hits false).persisted = persisted ∧
    (dedup_and_send persisted hits false).raised = true ∧
    (dedup_and_send persisted hits false).sent = false ∧
    (dedup_and_send persisted hits true).sent = true := by
  have he : (radarFilterNew persisted hits).1.isEmpty = false := by
    rcases h : (radarFilterNew persisted hits).1 with _ | ⟨a, l⟩
    · exact absurd h hnew
    · rfl
  unfold dedup_and_send
  rw [he]
  simp

/-- Claim C4 counterexample.  In rss_digest.main the seen marks are
persisted by the line-573 save_state BEFORE send_email runs: with an empty
store and one new item 7, a run whose SMTP send raises still persists
seen = item 7, so the failed dispatch consumed the event. -/
theorem c4_counterexample :
    (rssMainUS { seen := [], lastSentUS := none } [7] 100000 false).raised = true ∧
    (rssMainUS { seen := [], lastSentUS := none } [7] 100000 false).sentMarket = false ∧
    (rssMainUS { seen := [], lastSentUS := none } [7] 100000 false).persisted.seen = [7] := by
  decide

-- =====================================================================
-- Claim C5 (cooldown contract)
-- =====================================================================

/-- Claim C5, corrected.  cooldown_ok returns true iff the cooldown is
non-positive or now minus last-sent is at least the cooldown, where a
never-sent bucket enters the comparison as last-sent 0 (the source's
dict-lookup default), NOT as an unconditional pass; cooldown 0 always
passes; and after a successful send at t0, a second attempt d seconds
later fails for d below the cooldown and succeeds for d at or above it. -/
theorem c5_theorem (last : Option ℤ) (C t0 d : ℤ)
    (h1 : (sendAttempt last C t0).1 = true) (hd : 0 ≤ d) :
    (∀ now, cooldown_ok last C now = true ↔ (C ≤ 0 ∨ now - last.getD 0 ≥ C)) ∧
    (C ≤ 0 → ∀ now, cooldown_ok last C now = true) ∧
    (d < C → (sendAttempt (sendAttempt last C t0).2 C (t0 + d)).1 = false) ∧
    (C ≤ d → (sendAttempt (sendAttempt last C t0).2 C (t0 + d)).1 = true) := by
  have hsa : (sendAttempt last C t0).2 = some t0 := by
    unfold sendAttempt at h1 ⊢
    by_cases h : cooldown_ok last C t0 = true
    · simp [h, mark_sent]
    · rw [if_neg h] at h1
      simp at h1
  refine ⟨?_, ?_, ?_, ?_⟩
  · intro now
    unfold cooldown_ok
    by_cases h : C ≤ 0
    · simp [h]
    · simp [h]
  · intro h now
    unfold cooldown_ok
    simp [h]
  · intro hlt
    have hC : ¬(C ≤ 0) := by omega
    have hco : cooldown_ok (some t0) C (t0 + d) = false := by
      unfold cooldown_ok
      rw [if_neg hC]
      simp only [Option.getD_some, decide_eq_false_iff_not]
      omega
    rw [hsa]
    unfold sendAttempt
    rw [hco]
    rfl
  · intro hge
    have hco : cooldown_ok (some t0) C (t0 + d) = true := by
      unfold cooldown_ok
      by_cases h : C ≤ 0
      · rw [if_pos h]
      · rw [if_neg h]
        simp only [Option.getD_some, decide_eq_true_eq]
        omega
    rw [hsa]
    unfold sendAttempt
    rw [hco]
    rfl

/-- Claim C5 counterexample.  A bucket that has never sent (last_sent
absent): at now = 5 with cooldown 10 the claimed contract demands true
(the never-sent disjunct), but cooldown_ok computes 5 - 0 = 5 < 10 and
returns false. -/
theorem c5_counterexample :
    ¬(cooldown_ok none 10 5 = true ↔
        ((5 : ℤ) - (none : Option ℤ).getD 0 ≥ 10 ∨ (none : Option ℤ).isNone = true)) := by
  decide

-- =====================================================================
-- Claim C7 (partial-failure isolation across channels)
-- =====================================================================

/-- Claim C7, corrected.  The scanners dispatch channels sequentially with
no exception handling (scripts/ma20_scan_kr.py lines 188-189,
merge_and_send.py lines 176-177): when the email send raises, the telegram
channel is never attempted and the exception escapes and aborts the run;
only when email succeeds is telegram attempted, and a telegram failure
then escapes after the email went out; the escaping-exception-free case is
exactly both channels succeeding. -/
theorem c7_theorem :
    (sequential_dispatch false true = ([Chan.email], true)) ∧
    (sequential_dispatch true false = ([Chan.email, Chan.telegram], true)) ∧
    (sequential_dispatch true true = ([Chan.email, Chan.telegram], false)) ∧
    (∀ t : Bool, Chan.telegram ∉ (sequential_dispatch false t).1) ∧
    (∀ e t : Bool, ((sequential_dispatch e t).2 = false ↔ (e = true ∧ t = true))) := by
  decide

/-- Claim C7 counterexample.  Channel A (email) always fails, channel B
(telegram) always succeeds: the claim demands that B still sends and no
exception escapes, but the code never attempts B and the exception
escapes. -/
theorem c7_counterexample :
    Chan.telegram ∉ (sequential_dispatch false true).1 ∧
    (sequential_dispatch false true).2 = true := by
  decide

-- =====================================================================
-- Claim C9 (store pruning)
-- =====================================================================

/-- Claim C9, corrected.  The store write keeps the last 4000 elements of
an enumeration of the seen set: after every run each category holds at
most 4000 entries and only entries of the seen set (this holds for every
enumeration); but no first_seen_at is recorded and eviction order is the
set's arbitrary iteration order, not oldest-first (see the
counterexample). -/
theorem c9_theorem (enum : List Nat) :
    (pruneSeen enum).length ≤ 4000 ∧ ∀ x ∈ pruneSeen enum, x ∈ enum := by
  constructor
  · unfold pruneSeen
    rw [List.length_drop]
    omega
  · intro x hx
    exact List.drop_subset _ enum hx

/-- Claim C9 counterexample.  Store holds id 0 from an earlier run (the
oldest entry); the run adds the 4000 fresh ids 1..4000, so the seen set is
0..4000 with 4000 the newest.  Python set iteration order is arbitrary:
under the possible enumeration 4000, 0, 1, ..., 3999 the truncation keeps
0..3999 and evicts 4000 - the oldest entry survives and the newest is
evicted, contradicting oldest-first_seen_at-first eviction (no
first_seen_at is recorded at all). -/
theorem c9_counterexample :
    (fetch_rss_new_items [0] (List.range' 1 4000)).2 = List.range 4001 ∧
    List.Perm (4000 :: List.range 4000) (List.range 4001) ∧
    pruneSeen (4000 :: List.range 4000) = List.range 4000 ∧
    0 ∈ List.range 4000 ∧ 4000 ∉ List.range 4000 := by
  refine ⟨?_, ?_, ?_, ?_, ?_⟩
  · unfold fetch_rss_new_items
    rw [show ([0] : List Nat).dedup = [0] from rfl]
    rw [fetchFold_disjoint (List.range' 1 4000) ([], [0]) (List.nodup_range' 1 4000)
          (by
            intro s hs hmem
            rcases List.mem_singleton.mp hmem with rfl
            obtain ⟨i, hi, heq⟩ := List.mem_range'.mp hs
            omega)]
    rw [List.range_eq_range', List.range'_succ 0 4000 1]
    rfl
  · rw [List.range_succ 4000]
    exact (List.perm_append_singleton 4000 (List.range 4000)).symm
  · unfold pruneSeen
    rw [show (4000 :: List.range 4000).length - 4000 = 1 by
          rw [List.length_cons, List.length_range]]
    rw [List.drop_one, List.tail_cons]
  · exact List.mem_range.mpr (by norm_num)
  · intro h
    exact absurd (List.mem_range.mp h) (by norm_num)

-- =====================================================================
-- Claim C10 (_split_message chunk bounds)
-- =====================================================================

/-- Dropping a prefix by predicate never lengthens a list. -/
theorem dropWhile_len_le (p : Char → Bool) (l : List Char) :
    (l.dropWhile p).length ≤ l.length := by
  induction l with
  | nil => simp
  | cons x xs ih =>
    by_cases h : p x
    · rw [List.dropWhile_cons_of_pos h]
      simp
      omega
    · rw [List.dropWhile_cons_of_neg h]

/-- Stripping never lengthens a string. -/
theorem pyStrip_length_le (s : List Char) : (pyStrip s).length ≤ s.length := by
  unfold pyStrip
  rw [List.length_reverse]
  calc ((s.dropWhile Char.isWhitespace).reverse.dropWhile Char.isWhitespace).length
      ≤ (s.dropWhile Char.isWhitespace).reverse.length := dropWhile_len_le _ _
    _ = (s.dropWhile Char.isWhitespace).length := List.length_reverse _
    _ ≤ s.length := dropWhile_len_le _ _

/-- Appending one more line to the join adds a newline (when the buffer was
non-empty) plus the line. -/
theorem joinNL_snoc (buf : List (List Char)) (l : List Char) :
    joinNL (buf ++ [l]) = if buf.isEmpty then l else joinNL buf ++ '\n' :: l := by
  induction buf with
  | nil => simp [joinNL]
  | cons b bs ih =>
    cases bs with
    | nil => simp [joinNL]
    | cons b2 bs2 =>
      have e1 : joinNL ((b :: b2 :: bs2) ++ [l]) = b ++ '\n' :: joinNL ((b2 :: bs2) ++ [l]) := rfl
      rw [e1, ih]
      simp [joinNL, List.append_assoc, List.isEmpty_cons]

/-- Every chunk emitted by the long-line cutter fits in maxLen, and so does
the remainder. -/
theorem splitLong_spec (maxLen : Nat) (hm : maxLen ≠ 0) :
    ∀ (n : Nat) (s : List Char), s.length ≤ n →
      (∀ p ∈ (splitLong maxLen s).1, p.length ≤ maxLen) ∧
      (splitLong maxLen s).2.length ≤ maxLen := by
  intro n
  induction n with
  | zero =>
    intro s hs
    have hs0 : s = [] := List.eq_nil_of_length_eq_zero (Nat.le_zero.mp hs)
    subst hs0
    rw [splitLong, dif_neg hm, dif_neg (by simp)]
    exact ⟨by intro p hp; simp at hp, by simp⟩
  | succ n ih =>
    intro s hs
    rw [splitLong, dif_neg hm]
    by_cases h2 : s.length > maxLen
    · rw [dif_pos h2]
      have hrec := ih (s.drop maxLen) (by rw [List.length_drop]; omega)
      constructor
      · intro p hp
        rcases List.mem_cons.mp hp with rfl | hmem
        · calc (pyStrip (s.take maxLen)).length
              ≤ (s.take maxLen).length := pyStrip_length_le _
            _ ≤ maxLen := by rw [List.length_take]; omega
        · exact hrec.1 p hmem
      · exact hrec.2
    · rw [dif_neg h2]
      exact ⟨by intro p hp; simp at hp, by simp; omega⟩

/-- Invariant of the _split_message line loop: if cur is the joined length
of the buffer and is within maxLen, every emitted chunk has length at most
maxLen. -/
theorem smGo_length_le (maxLen : Nat) (hm : 1 ≤ maxLen) :
    ∀ (lines buf : List (List Char)) (cur : Nat),
      (joinNL buf).length = cur → cur ≤ maxLen →
      ∀ c ∈ smGo maxLen lines buf cur, c.length ≤ maxLen := by
  intro lines
  induction lines with
  | nil =>
    intro buf cur h1 h2 c hc
    simp only [smGo] at hc
    by_cases hb : buf.isEmpty = true
    · rw [if_pos hb] at hc
      simp at hc
    · rw [if_neg hb] at hc
      rcases List.mem_singleton.mp hc with rfl
      calc (pyStrip (joinNL buf)).length ≤ (joinNL buf).length := pyStrip_length_le _
        _ = cur := h1
        _ ≤ maxLen := h2
  | cons line rest ih =>
    intro buf cur h1 h2 c hc
    have hflush : ∀ x ∈ (if buf.isEmpty then [] else [pyStrip (joinNL buf)]),
        x.length ≤ maxLen := by
      intro x hx
      by_cases hb : buf.isEmpty = true
      · rw [if_pos hb] at hx; simp at hx
      · rw [if_neg hb] at hx
        rcases List.mem_singleton.mp hx with rfl
        calc (pyStrip (joinNL buf)).length ≤ (joinNL buf).length := pyStrip_length_le _
          _ = cur := h1
          _ ≤ maxLen := h2
    simp only [smGo] at hc
    by_cases hfit : cur + ((if buf.isEmpty then 0 else 1) + line.length) ≤ maxLen
    · rw [if_pos hfit] at hc
      refine ih (buf ++ [line]) _ ?_ hfit c hc
      rw [joinNL_snoc]
      by_cases hb : buf.isEmpty = true
      · have hbuf : buf = [] := List.isEmpty_iff.mp hb
        subst hbuf
        simp [joinNL] at h1
        simp [← h1, joinNL]
      · rw [if_neg hb, List.length_append, h1]
        rw [if_neg hb]
        simp
        omega
    · rw [if_neg hfit] at hc
      by_cases hlong : line.length > maxLen
      · rw [if_pos hlong] at hc
        have hsplit := splitLong_spec maxLen (by omega) line.length line le_rfl
        by_cases hrem : (pyStrip (splitLong maxLen line).2).isEmpty = true
        · rw [if_pos hrem] at hc
          rcases List.mem_append.mp hc with hc1 | hc2
          · rcases List.mem_append.mp hc1 with hA | hB
            · exact hflush c hA
            · exact hsplit.1 c hB
          · exact ih [] 0 (by simp [joinNL]) (by omega) c hc2
        · rw [if_neg hrem] at hc
          rcases List.mem_append.mp hc with hc1 | hc2
          · rcases List.mem_append.mp hc1 with hA | hB
            · exact hflush c hA
            · exact hsplit.1 c hB
          · refine ih [pyStrip (splitLong maxLen line).2] _ (by simp [joinNL]) ?_ c hc2
            calc (pyStrip (splitLong maxLen line).2).length
                ≤ (splitLong maxLen line).2.length := pyStrip_length_le _
              _ ≤ maxLen := hsplit.2
      · rw [if_neg hlong] at hc
        rcases List.mem_append.mp hc with hc1 | hc2
        · exact hflush c hc1
        · exact ih [line] line.length (by simp [joinNL]) (by omega) c hc2

/-- Claim C10, confirmed.  For every input text and every max_len at least
1, every chunk returned by _split_message is a non-empty string of length
at most max_len, and a whitespace-only (or empty) input yields the empty
list. -/
theorem c10_theorem (text : List Char) (maxLen : Nat) (hm : 1 ≤ maxLen) :
    (∀ c ∈ split_message text maxLen, c ≠ [] ∧ c.length ≤ maxLen) ∧
    (pyStrip text = [] → split_message text maxLen = []) := by
  constructor
  · intro c hc
    unfold split_message at hc
    by_cases h0 : (pyStrip text).isEmpty = true
    · rw [if_pos h0] at hc
      simp at hc
    · rw [if_neg h0] at hc
      by_cases h1 : (pyStrip text).length ≤ maxLen
      · rw [if_pos h1] at hc
        rcases List.mem_singleton.mp hc with rfl
        refine ⟨?_, h1⟩
        intro hnil
        rw [hnil] at h0
        exact h0 rfl
      · rw [if_neg h1] at hc
        have hmem := List.mem_filter.mp hc
        refine ⟨?_, smGo_length_le maxLen hm _ [] 0 (by simp [joinNL]) (by omega) c hmem.1⟩
        intro hnil
        have := hmem.2
        rw [hnil] at this
        simp at this
  · intro h
    unfold split_message
    rw [h]
    simp

/-- Witness for c10_theorem at a concrete input. -/
theorem c10_witness :
    (∀ c ∈ split_message ['a', 'b', '\n', 'c'] 2, c ≠ [] ∧ c.length ≤ 2) ∧
    (pyStrip ['a', 'b', '\n', 'c'] = [] → split_message ['a', 'b', '\n', 'c'] 2 = []) :=
  c10_theorem ['a', 'b', '\n', 'c'] 2 (by norm_num)

-- =====================================================================
-- Claim C6 (RSI with zero average loss)
-- =====================================================================

/-- When every defined difference is non-negative, every loss entry is
NaN (the leading diff) or zero. -/
theorem losses_of_nonneg (d : List (Option ℚ)) (h : ∀ q : ℚ, some q ∈ d → 0 ≤ q) :
    ∀ o ∈ losses d, o = none ∨ o = some 0 := by
  intro o ho
  unfold losses at ho
  rcases List.mem_map.mp ho with ⟨x, hx, rfl⟩
  cases x with
  | none => left; rfl
  | some q =>
    right
    have hq := h q hx
    have hmax : max (-q) 0 = 0 := max_eq_right (by linarith)
    simp [hmax]

/-- The running Wilder mean seeded at 0 stays 0 on none-or-zero input. -/
theorem ewmRun_zero (a : ℚ) :
    ∀ (l : List (Option ℚ)), (∀ o ∈ l, o = none ∨ o = some 0) →
      ∀ o ∈ ewmRun a 0 l, o = some 0 := by
  intro l
  induction l with
  | nil => intro _ o ho; simp [ewmRun] at ho
  | cons x xs ih =>
    intro h o ho
    rcases h x (List.mem_cons_self x xs) with rfl | rfl
    · rw [show ewmRun a 0 (none :: xs) = some 0 :: ewmRun a 0 xs from rfl] at ho
      rcases List.mem_cons.mp ho with rfl | hmem
      · rfl
      · exact ih (fun o ho => h o (List.mem_cons_of_mem _ ho)) o hmem
    · rw [show ewmRun a 0 (some 0 :: xs) = some ((1 - a) * 0 + a * 0) :: ewmRun a 0 xs from rfl]
          at ho
      rcases List.mem_cons.mp ho with rfl | hmem
      · norm_num
      · exact ih (fun o ho => h o (List.mem_cons_of_mem _ ho)) o hmem

/-- The Wilder mean of a none-or-zero series is none-or-zero everywhere. -/
theorem ewmMean_zero (a : ℚ) :
    ∀ (l : List (Option ℚ)), (∀ o ∈ l, o = none ∨ o = some 0) →
      ∀ o ∈ ewmMean a l, o = none ∨ o = some 0 := by
  intro l
  induction l with
  | nil => intro _ o ho; simp [ewmMean] at ho
  | cons x xs ih =>
    intro h o ho
    rcases h x (List.mem_cons_self x xs) with rfl | rfl
    · rw [show ewmMean a (none :: xs) = none :: ewmMean a xs from rfl] at ho
      rcases List.mem_cons.mp ho with rfl | hmem
      · left; rfl
      · exact ih (fun o ho => h o (List.mem_cons_of_mem _ ho)) o hmem
    · rw [show ewmMean a (some 0 :: xs) = some 0 :: ewmRun a 0 xs from rfl] at ho
      rcases List.mem_cons.mp ho with rfl | hmem
      · right; rfl
      · exact Or.inr (ewmRun_zero a xs (fun o ho => h o (List.mem_cons_of_mem _ ho)) o hmem)

/-- Dividing by an all-NaN denominator series gives an all-NaN result. -/
theorem zipWith_ratDiv_none :
    ∀ (l1 l2 : List (Option ℚ)), (∀ y ∈ l2, y = none) →
      ∀ z ∈ List.zipWith ratDivOpt l1 l2, z = none := by
  intro l1
  induction l1 with
  | nil => intro l2 _ z hz; simp at hz
  | cons x xs ih =>
    intro l2 h z hz
    cases l2 with
    | nil => simp at hz
    | cons y ys =>
      rw [List.zipWith_cons_cons] at hz
      rcases List.mem_cons.mp hz with rfl | hmem
      · rcases h y (List.mem_cons_self y ys) with rfl
        cases x <;> rfl
      · exact ih ys (fun y hy => h y (List.mem_cons_of_mem _ hy)) z hmem

/-- With no losses anywhere in the diff series, every value of the rsi
series is 0: the smoothed average loss is identically zero, replace(0,nan)
makes rs NaN everywhere, out is NaN everywhere, and fillna(0) turns the
whole series into zeros. -/
theorem rsiSeries_zero (closes : List ℚ)
    (h : ∀ q : ℚ, some q ∈ pdDiff closes → 0 ≤ q) :
    ∀ x ∈ rsiSeries closes, x = 0 := by
  intro x hx
  unfold rsiSeries at hx
  rcases List.mem_map.mp hx with ⟨o, ho, rfl⟩
  rcases List.mem_map.mp ho with ⟨z, hz, rfl⟩
  have hzn : z = none := by
    refine zipWith_ratDiv_none _ _ ?_ z hz
    intro y hy
    rcases List.mem_map.mp hy with ⟨w, hw, rfl⟩
    rcases ewmMean_zero (1/14) _ (losses_of_nonneg _ h) w hw with rfl | rfl
    · rfl
    · simp [replaceZero]
  rw [hzn]
  rfl

/-- The last rsi value is 0 whenever the series never falls. -/
theorem rsiLast_zero (closes : List ℚ)
    (h : ∀ q : ℚ, some q ∈ pdDiff closes → 0 ≤ q) : rsiLast closes = 0 := by
  unfold rsiLast
  rcases hl : (rsiSeries closes).getLast? with _ | x
  · rfl
  · have hx := rsiSeries_zero closes h x (List.mem_of_getLast?_eq_some hl)
    simp [hx]

/-- Claim C6, corrected.  For a price series with no losses (all diffs
non-negative, so the Wilder average loss is zero), the rsi code replaces
the zero average loss by NaN, so rs and out are NaN, and the final
fillna(0) returns RSI = 0 - a finite value, not infinity or NaN, but 0
rather than the claimed 100. -/
theorem c6_theorem (closes : List ℚ)
    (h : ∀ q : ℚ, some q ∈ pdDiff closes → 0 ≤ q) :
    rsiLast closes = 0 ∧ rsiLast closes ≠ 100 := by
  have h0 := rsiLast_zero closes h
  exact ⟨h0, by rw [h0]; norm_num⟩

/-- Claim C6 counterexample.  Sixteen strictly rising closes (15 gains,
no losses over more than 14 periods): the code returns RSI = 0, where the
claim demands 100. -/
theorem c6_counterexample : rsiLast c6Closes = 0 ∧ (0 : ℚ) ≠ 100 := by
  constructor
  · apply rsiLast_zero
    intro q hq
    norm_num [c6Closes, pdDiff, pdDiffGo] at hq
    rcases hq with hq | hq
    · simp at hq
    · rw [hq]
      norm_num
  · norm_num

/-- Witness for c6_theorem at a concrete rising series. -/
theorem c6_witness :
    (∀ q : ℚ, some q ∈ pdDiff [1, 2, 3] → 0 ≤ q) ∧
    (rsiLast [1, 2, 3] = 0 ∧ rsiLast [1, 2, 3] ≠ 100) := by
  have hp : ∀ q : ℚ, some q ∈ pdDiff [1, 2, 3] → 0 ≤ q := by
    intro q hq
    norm_num [pdDiff, pdDiffGo] at hq
    rcases hq with hq | hq
    · simp at hq
    · rw [hq]
      norm_num
  exact ⟨hp, c6_theorem [1, 2, 3] hp⟩

-- =====================================================================
-- Claim C1 (breakout rule)
-- =====================================================================

/-- Component values of the example series. -/
theorem exCloses_facts :
    exCloses.length = 25 ∧
    exCloses.getLast? = some 101 ∧
    exCloses.dropLast.getLast? = some 99 ∧
    rollingLast 20 exCloses = some 100 ∧
    rollingLast 20 exCloses.dropLast = some 100 := by
  refine ⟨by simp [exCloses], by simp [exCloses], by simp [exCloses], ?_, ?_⟩
  · norm_num [rollingLast, exCloses]
  · norm_num [rollingLast, exCloses]

/-- Claim C1, corrected.  Per variant: compute_signals in
scripts/ma20_scan_kr.py flags Breakout iff c_prev <= m_prev and
c_now > m_now AND the liquidity floor holds (first conjunct); scan in
eod_ma20_close.py emits a Breakout row iff c_prev < m_prev and
c_now >= m_now - strict/non-strict swapped relative to the claim (second
conjunct); the specification's concrete example (prev close 99 under MA
100, latest close 101 over MA 100, volume ratio 1.0, VOL_MULT 1.0) yields
exactly one Breakout in all three scanner variants (remaining
conjuncts; in kis_ma20_close_kr the near flag is false, so the event is
Breakout only). -/
theorem c1_theorem (floor cPrev cNow mPrev mNow vNow : ℚ) (closes vals : List ℚ)
    (h25 : 25 ≤ closes.length)
    (h1 : closes.dropLast.getLast? = some cPrev)
    (h2 : closes.getLast? = some cNow)
    (h3 : rollingLast 20 closes.dropLast = some mPrev)
    (h4 : rollingLast 20 closes = some mNow)
    (h5 : vals.getLast? = some vNow) :
    (ma20_breakout_mask floor closes vals = true ↔
      (cPrev ≤ mPrev ∧ cNow > mNow ∧ vNow ≥ floor)) ∧
    (eod_scan_kind closes = some true ↔ (cPrev < mPrev ∧ cNow ≥ mNow)) ∧
    ma20_breakout_mask 0 exCloses exVals = true ∧
    eod_scan_kind exCloses = some true ∧
    (calc_signals 0 1 (5/1000) exCloses exVols).map KisSig.is_breakout = some true ∧
    (calc_signals 0 1 (5/1000) exCloses exVols).map KisSig.is_near = some false := by
  refine ⟨?_, ?_, ?_, ?_, ?_, ?_⟩
  · unfold ma20_breakout_mask
    rw [h1, h2, h3, h4, h5]
    simp [and_assoc]
  · unfold eod_scan_kind
    rw [if_neg (by omega), h1, h2, h3, h4]
    by_cases hb : cPrev < mPrev ∧ cNow ≥ mNow
    · have hbool : (decide (cPrev < mPrev) && decide (cNow ≥ mNow)) = true := by
        simp [hb.1, hb.2]
      simp only [hbool, Bool.true_or, if_pos]
      simp [hb]
    · have hbool : (decide (cPrev < mPrev) && decide (cNow ≥ mNow)) = false := by
        rcases not_and_or.mp hb with h | h <;> simp [h]
      simp only [hbool, Bool.false_or]
      by_cases hnear : |cNow / mNow - 1| ≤ EOD_NEAR_PCT
      · simp [hnear, hb]
      · simp [hnear, hb]
  · have hf := exCloses_facts
    unfold ma20_breakout_mask
    rw [hf.2.2.1, hf.2.1, hf.2.2.2.2, hf.2.2.2.1, show exVals.getLast? = some 1 by simp [exVals]]
    norm_num
  · have hf := exCloses_facts
    unfold eod_scan_kind
    rw [if_neg (by rw [hf.1]; omega), hf.2.1, hf.2.2.1, hf.2.2.2.1, hf.2.2.2.2]
    norm_num [EOD_NEAR_PCT]
  · have hf := exCloses_facts
    unfold calc_signals
    rw [if_neg (by rw [hf.1]; omega), hf.2.1, hf.2.2.1, hf.2.2.2.1, hf.2.2.2.2,
        show exVols.getLast? = some 7 by simp [exVols],
        show rollingLast 20 exVols = some 7 by norm_num [rollingLast, exVols]]
    norm_num
  · have hf := exCloses_facts
    unfold calc_signals
    rw [if_neg (by rw [hf.1]; omega), hf.2.1, hf.2.2.1, hf.2.2.2.1, hf.2.2.2.2,
        show exVols.getLast? = some 7 by simp [exVols],
        show rollingLast 20 exVols = some 7 by norm_num [rollingLast, exVols]]
    norm_num [abs_le]

/-- Witness for c1_theorem at the example data. -/
theorem c1_witness :
    ((ma20_breakout_mask 0 exCloses exVals = true ↔
        ((99 : ℚ) ≤ 100 ∧ (101 : ℚ) > 100 ∧ (1 : ℚ) ≥ 0)) ∧
      (eod_scan_kind exCloses = some true ↔ ((99 : ℚ) < 100 ∧ (101 : ℚ) ≥ 100)) ∧
      ma20_breakout_mask 0 exCloses exVals = true ∧
      eod_scan_kind exCloses = some true ∧
      (calc_signals 0 1 (5/1000) exCloses exVols).map KisSig.is_breakout = some true ∧
      (calc_signals 0 1 (5/1000) exCloses exVols).map KisSig.is_near = some false) :=
  c1_theorem 0 99 101 100 100 1 exCloses exVals
    (by simp [exCloses])
    (by simp [exCloses]) (by simp [exCloses])
    (by norm_num [rollingLast, exCloses]) (by norm_num [rollingLast, exCloses])
    (by simp [exVals])

/-- Claim C1 counterexample.  For the series c1CexCloses the claimed
Breakout condition holds - previous close 100 is at (less than or equal
to) the previous MA 100, and the latest close 101 is strictly above the
latest MA 2001/20 - yet eod_ma20_close.scan emits no Breakout event (and
no event at all): its condition requires the strict inequality
c_prev < m_prev. -/
theorem c1_counterexample :
    ((100 : ℚ) ≤ 100 ∧ (2001/20 : ℚ) < 101) ∧
    c1CexCloses.dropLast.getLast? = some 100 ∧
    c1CexCloses.getLast? = some 101 ∧
    rollingLast 20 c1CexCloses.dropLast = some 100 ∧
    rollingLast 20 c1CexCloses = some (2001/20) ∧
    eod_scan_kind c1CexCloses = none := by
  have e1 : c1CexCloses.dropLast.getLast? = some 100 := by simp [c1CexCloses]
  have e2 : c1CexCloses.getLast? = some 101 := by simp [c1CexCloses]
  have e3 : rollingLast 20 c1CexCloses.dropLast = some 100 := by
    norm_num [rollingLast, c1CexCloses]
  have e4 : rollingLast 20 c1CexCloses = some (2001/20) := by
    norm_num [rollingLast, c1CexCloses]
  refine ⟨by norm_num, e1, e2, e3, e4, ?_⟩
  unfold eod_scan_kind
  rw [if_neg (by simp [c1CexCloses]), e1, e2, e3, e4]
  norm_num [EOD_NEAR_PCT, abs_le]

-- =====================================================================
-- Claim C8 (zero or undefined average volume)
-- =====================================================================

/-- Claim C8, corrected.  No division by zero ever happens - both scanners
guard the ratio behind a positivity test and substitute 0.0 - and for
every POSITIVE VOL_MULT a zero-or-undefined 20-day average volume makes
calc_signals reject the symbol, while the rss spike rules reject whenever
the previous volume and value are both non-positive, for every threshold
value; but the rejection claim fails for the configured threshold
VOL_MULT = 0 (see the counterexample). -/
theorem c8_theorem (MIN_PRICE VOL_MULT NEAR_PCT : ℚ) (closes vols : List ℚ)
    (hvm : 0 < VOL_MULT)
    (hz : ∀ x : ℚ, rollingLast 20 vols = some x → x ≤ 0) :
    calc_signals MIN_PRICE VOL_MULT NEAR_PCT closes vols = none ∧
    (∀ volSpikeMult valSpikeMult pctFloor pv pval vol val pct : ℚ,
        pv ≤ 0 → pval ≤ 0 →
        spike_hit volSpikeMult valSpikeMult pctFloor pv pval vol val pct = false) := by
  constructor
  · unfold calc_signals
    by_cases hlen : closes.length < 25
    · rw [if_pos hlen]
    · rw [if_neg hlen]
      split
      · rename_i c0 c1 m0 m1 v0 vm0 e1 e2 e3 e4 e5 e6
        have hvm0 : vm0 ≤ 0 := hz vm0 e6
        have hvx : (if vm0 > 0 then v0 / vm0 else 0) = 0 := if_neg (by linarith)
        by_cases hp : c0 < MIN_PRICE
        · rw [if_pos hp]
        · rw [if_neg hp, hvx, if_pos hvm]
      · rfl
  · intro volSpikeMult valSpikeMult pctFloor pv pval vol val pct hpv hpval
    unfold spike_hit
    simp [show ¬(pv > 0) by linarith, show ¬(pval > 0) by linarith]

/-- Witness for c8_theorem: zero average volume with VOL_MULT = 1. -/
theorem c8_witness :
    (calc_signals 0 1 (5/1000) exCloses c8Vols = none ∧
      (∀ volSpikeMult valSpikeMult pctFloor pv pval vol val pct : ℚ,
          pv ≤ 0 → pval ≤ 0 →
          spike_hit volSpikeMult valSpikeMult pctFloor pv pval vol val pct = false)) :=
  c8_theorem 0 1 (5/1000) exCloses c8Vols (by norm_num)
    (by
      intro x hx
      norm_num [rollingLast, c8Vols] at hx
      linarith [hx])

/-- Claim C8 counterexample.  With the configured threshold VOL_MULT = 0
and an all-zero volume column (rolling average volume 0), the volume
ratio is the substituted 0.0, the filter 0.0 < 0 does not reject, and the
symbol is classified - calc_signals returns a Breakout signal instead of
rejecting, contradicting the for-every-threshold rejection claim. -/
theorem c8_counterexample :
    (calc_signals 0 0 (5/1000) exCloses c8Vols).map KisSig.is_breakout = some true := by
  have hf := exCloses_facts
  unfold calc_signals
  rw [if_neg (by rw [hf.1]; omega), hf.2.1, hf.2.2.1, hf.2.2.2.1, hf.2.2.2.2,
      show c8Vols.getLast? = some 0 by simp [c8Vols],
      show rollingLast 20 c8Vols = some 0 by norm_num [rollingLast, c8Vols]]
  norm_num

-- =====================================================================
-- Witnesses at concrete inputs for the theorems with hypotheses
-- =====================================================================

/-- Witness for c2_theorem at small concrete stores. -/
theorem c2_witness :
    ((fetch_rss_new_items (pruneSeen (fetch_rss_new_items [5] [5, 6]).2) [5, 6]).1 = [] ∧
      (∀ s ∈ [5], s ∉ (fetch_rss_new_items [5] [5, 6]).1) ∧
      (dedup_and_send (dedup_and_send [1] [1, 2] true).persisted [1, 2] true).sent = false) :=
  c2_theorem [5] [5, 6] [1] [1, 2] (by decide)

/-- Witness for c3_theorem at the concrete cooldown scenario. -/
theorem c3_witness :
    ((rssMainUS { seen := [], lastSentUS := some 1000 } [7] 1500 true).sentMarket = false ∧
      (rssMainUS { seen := [], lastSentUS := some 1000 } [7] 1500 true).raised = false ∧
      (∀ s ∈ [7],
        s ∈ (rssMainUS { seen := [], lastSentUS := some 1000 } [7] 1500 true).persisted.seen) ∧
      (rssMainUS (rssMainUS { seen := [], lastSentUS := some 1000 } [7] 1500 true).persisted
          [7] 4000 true).sentMarket = false) :=
  c3_theorem { seen := [], lastSentUS := some 1000 } [7] 1500 4000 true true
    (by decide) (by decide)

/-- Witness for c4_theorem at one fresh hit. -/
theorem c4_witness :
    ((dedup_and_send [] [3] false).persisted = [] ∧
      (dedup_and_send [] [3] false).raised = true ∧
      (dedup_and_send [] [3] false).sent = false ∧
      (dedup_and_send [] [3] true).sent = true) :=
  c4_theorem [] [3] (by decide)

/-- Witness for c5_theorem: fresh bucket, cooldown 10, send at 100,
retry 3 seconds later. -/
theorem c5_witness :
    ((∀ now, cooldown_ok none 10 now = true ↔
        ((10 : ℤ) ≤ 0 ∨ now - (none : Option ℤ).getD 0 ≥ 10)) ∧
      ((10 : ℤ) ≤ 0 → ∀ now, cooldown_ok none 10 now = true) ∧
      ((3 : ℤ) < 10 → (sendAttempt (sendAttempt none 10 100).2 10 (100 + 3)).1 = false) ∧
      ((10 : ℤ) ≤ 3 → (sendAttempt (sendAttempt none 10 100).2 10 (100 + 3)).1 = true)) :=
  c5_theorem none 10 100 3 (by decide) (by decide)

/-- Witness for c9_theorem at a small enumeration. -/
theorem c9_witness :
    (pruneSeen [1, 2, 3]).length ≤ 4000 ∧ ∀ x ∈ pruneSeen [1, 2, 3], x ∈ [1, 2, 3] :=
  c9_theorem [1, 2, 3]
